import Mathlib

/-!
Shallow embedding of `automation/trends.py` (`TrendClient` and its
configuration).  Machine state that the Python code obtains from the
outside world — the wall clock, the on-disk cache, the pytrends and
requests libraries, the network — is modelled as an explicit
environment (`Env`).  Every fallible primitive carries its failure case
(`Except PyErr _` or a dedicated error constructor), and each Python
`try/except` block of the source appears as an explicit match on that
failure case.  Each function also returns a trace of its observable
effects (cache writes, fetch attempts, backoff sleeps, backfill file
probes) so that the temporal properties of the spec can be stated.
-/

/-- A Python exception value (only its message matters here). -/
abbrev PyErr := String

/-- Modelled from Python's `str.strip()`: drop leading and trailing
whitespace. -/
def pyStrip (s : String) : String :=
  ⟨((s.data.dropWhile Char.isWhitespace).reverse.dropWhile
      Char.isWhitespace).reverse⟩

/-- Modelled from Python's `str.upper()`: uppercase every character. -/
def pyUpper (s : String) : String :=
  ⟨s.data.map Char.toUpper⟩

/-- Splitting a character list at every `,` (the separator of
`cfg.naver_seed.split(",")`). -/
def splitCommaAux (cur : List Char) : List Char → List (List Char)
  | [] => [cur.reverse]
  | c :: rest =>
    if c = ',' then cur.reverse :: splitCommaAux [] rest
    else splitCommaAux (c :: cur) rest

/-- Modelled from Python's `str.split(",")`. -/
def pySplitComma (s : String) : List String :=
  (splitCommaAux [] s.data).map List.asString

/-- Stable insertion of a word into a list sorted by `le`. -/
def sortInsert (le : String → String → Bool) (x : String) :
    List String → List String
  | [] => [x]
  | y :: rest => if le x y then x :: y :: rest else y :: sortInsert le x rest

/-- Modelled from Python's stable `sorted(xs, key=...)`: a stable
insertion sort by the Boolean comparison `le`. -/
def pySorted (le : String → String → Bool) : List String → List String
  | [] => []
  | x :: rest => sortInsert le x (pySorted le rest)

/-- Result of `json.load` on a cache file: either a JSON list (whose
elements the source immediately coerces with `str(x)`, so we keep them
as strings) or some other JSON value (`"miss: invalid format"`). -/
inductive JsonData
  | list (xs : List String)
  | nonList
deriving DecidableEq

deriving instance DecidableEq for Except

/-- One on-disk cache file `trends_YYYY-MM-DD.json`: `stat` models
`p.stat().st_mtime` (which may raise), `load` models
`json.load(open(p))` (which may raise). -/
structure Entry where
  stat : Except PyErr Int
  load : Except PyErr JsonData
deriving DecidableEq

/-- The cache directory: for each day index, the file for that date or
`none` when `p.exists()` is false. -/
def CacheState := Int → Option Entry

/-- The wall clock as the source reads it: `now` is the timestamp in
seconds used by the freshness comparison, `today` the day index of
`datetime.now().date()`, and `ymd` the integer
`int(datetime.now().strftime("%Y%m%d"))` used as a random seed. -/
structure Clock where
  now : Int
  today : Int
  ymd : Nat

/-- One cell of the dataframe row iteration (`v = row[0]`): a string or
a non-string value. -/
inductive Cell
  | str (s : String)
  | other
deriving DecidableEq

/-- Outcome of `tr.trending_searches(pn=pn)` for one candidate: the call
raises, returns `None`/an empty dataframe, or returns rows. -/
inductive SweepOutcome
  | raise
  | emptyDf
  | df (rows : List Cell)

/-- The external world of one `TrendClient` call. -/
structure Env where
  clock : Clock
  cache : CacheState
  /-- Whether `from pytrends.request import TrendReq` succeeded. -/
  pytrendsOk : Bool
  /-- Result of constructing `TrendReq(...)` on a given attempt. -/
  trendReq : Nat → Except PyErr Unit
  /-- Result of `tr.trending_searches(pn=pn)` on a given attempt. -/
  sweep : Nat → String → SweepOutcome
  /-- Value drawn by `random.uniform(0, 2.0)` before retrying. -/
  jitter : Nat → ℚ
  /-- Whether `import requests` succeeded in the Naver backup. -/
  requestsOk : Bool
  /-- Keywords produced by `_suggest(seed)`; the source catches every
  exception inside `_suggest` and returns `[]`, so the oracle is total. -/
  suggest : String → List String

/-- `TrendConfig` (defaults as in the dataclass). -/
structure TrendConfig where
  cache_ttl_days : Int := 2
  sleep_min : ℚ := 2
  sleep_max : ℚ := 5
  batch_size : Int := 5
  region_default : String := "KR"
  backfill_days : Int := 7
  allow_defaults : Bool := true
  use_naver_backup : Bool := true
  naver_seed : String := "가,나,다,라,마,바,사,아,자,차,카,타,파,하,AI,뉴스,날씨,음악,게임,영화,드라마,쇼핑,핫딜"

/-- Modelled from the spec: `random.Random(seed)` is a pseudo-random
generator fully determined by its integer seed (the Mersenne–Twister
implementation itself is library code, not part of this repository);
we use a 64-bit linear congruential step. -/
def lcgNext (s : Nat) : Nat :=
  (6364136223846793005 * s + 1442695040888963407) % (2 ^ 64)

/-- Modelled from the spec: `rng.shuffle(xs)` "deterministically
shuffles" the list using the seeded generator — a permutation of `xs`
fully determined by `(seed, xs)`, built by repeatedly extracting the
element at a generator-chosen index.  `fuel` is initialised to the
length of the list. -/
def pyShuffleAux (seed : Nat) : Nat → List String → List String
  | 0, _ => []
  | _ + 1, [] => []
  | fuel + 1, x :: rest =>
      let xs := x :: rest
      let i := seed % xs.length
      xs.getD i x :: pyShuffleAux (lcgNext seed) fuel (xs.eraseIdx i)

/-- Modelled from the spec: deterministic shuffle of a list by a seed. -/
def pyShuffle (seed : Nat) (xs : List String) : List String :=
  pyShuffleAux seed xs.length xs

/-- `TrendClient._read_cache_if_fresh`: returns the decoded list on a
fresh valid hit, otherwise `none` with the miss reason; every raise
point (`stat`, `open`/`json.load`) is inside the `try` and mapped to
`"miss: error"`. -/
def readCacheIfFresh (cfg : TrendConfig) (now : Int) (cache : CacheState)
    (d : Int) : Option (List String) × String :=
  match cache d with
  | none => (none, "miss: no file")
  | some e =>
    match e.stat with
    | .error _ => (none, "miss: error")
    | .ok mtime =>
      if now - mtime ≤ cfg.cache_ttl_days * 86400 then
        match e.load with
        | .error _ => (none, "miss: error")
        | .ok (.list xs) => (some xs, "fresh")
        | .ok .nonList => (none, "miss: invalid format")
      else (none, "miss: stale")

/-- Modelled from Python's builtin `max` on two numbers. -/
def pymax (a b : ℚ) : ℚ := if a ≤ b then b else a

/-- Modelled from Python's builtin `min` on two numbers. -/
def pymin (a b : ℚ) : ℚ := if a ≤ b then a else b

/-- The backoff delay computed before retry `attempt` in
`_fetch_with_retry`: `base_sleep = max(sleep_min, 1.0)`,
`sleep_s = base_sleep * 2 ** (attempt - 1)`,
`gap = min(max(sleep_s + jitter, sleep_min), sleep_max * 4)`. -/
def backoffGap (cfg : TrendConfig) (attempt : Nat) (jitter : ℚ) : ℚ :=
  let base_sleep := pymax cfg.sleep_min 1
  let sleep_s := base_sleep * 2 ^ (attempt - 1)
  pymin (pymax (sleep_s + jitter) cfg.sleep_min) (cfg.sleep_max * 4)

/-- The row loop of one candidate: `local.append(v.strip())` for every
row cell `v` that is a string. -/
def parseRows (rows : List Cell) : List String :=
  rows.filterMap fun c =>
    match c with
    | .str s => some (pyStrip s)
    | .other => none

/-- The `for pn in pn_candidates` loop of one attempt: the first
candidate whose parsed rows are non-empty wins; a raising or empty
candidate is skipped (`continue`). -/
def sweepCandidates (env : Env) (attempt : Nat) : List String → List String
  | [] => []
  | pn :: rest =>
    match env.sweep attempt pn with
    | .raise => sweepCandidates env attempt rest
    | .emptyDf => sweepCandidates env attempt rest
    | .df rows =>
      let l := parseRows rows
      if l = [] then sweepCandidates env attempt rest else l

/-- The body of one `try` block of the retry loop: constructing
`TrendReq` may raise (the attempt then fails, caught by the `except`),
otherwise the candidates are swept; the empty result models
`raise RuntimeError("no pn candidate produced items")`. -/
def attemptOnce (env : Env) (cands : List String) (attempt : Nat) : List String :=
  match env.trendReq attempt with
  | .error _ => []
  | .ok _ => sweepCandidates env attempt cands

/-- Result of `_fetch_with_retry` together with its observable trace:
the number of attempts performed and `sleepLog`, the failed attempt
numbers after which the loop slept; the delay slept after failed
attempt `a` is `backoffGap cfg a (env.jitter a)` by the definition of
`retryLoop`. -/
structure FetchRes where
  items : List String
  attempts : Nat
  sleepLog : List Nat
deriving DecidableEq

/-- The `while attempt < 5` loop of `_fetch_with_retry`.  `attempt` is
the counter before the increment, `fuel = 5 - attempt` counts the
remaining loop iterations.  A successful attempt returns
`items[:limit]`; a failed fifth attempt returns `[]` (the
`if attempt >= 5` branch of the `except`); otherwise the loop sleeps
`backoffGap cfg a (env.jitter a)` seconds (recorded in the trace by
the attempt number `a`) and retries. -/
def retryLoop (env : Env) (cfg : TrendConfig) (cands : List String)
    (limit : Nat) : Nat → Nat → FetchRes
  | attempt, 0 => { items := [], attempts := attempt, sleepLog := [] }
  | attempt, fuel + 1 =>
    let a := attempt + 1
    let items := attemptOnce env cands a
    if items = [] then
      if 5 ≤ a then { items := [], attempts := a, sleepLog := [] }
      else
        let r := retryLoop env cfg cands limit a fuel
        { items := r.items, attempts := r.attempts,
          sleepLog := a :: r.sleepLog }
    else { items := items.take limit, attempts := a, sleepLog := [] }

/-- The `seen`-set deduplication at the end of `_pn_candidates`. -/
def uniqSeen (seen : List String) : List String → List String
  | [] => []
  | x :: rest =>
    if x ∈ seen then uniqSeen seen rest
    else x :: uniqSeen (x :: seen) rest

/-- `TrendClient._pn_candidates`. -/
def pnCandidates (region : String) : List String :=
  let r := pyUpper region
  let base : List String :=
    if r = "KR" then ["south-korea", "south_korea", "korea"]
    else if r = "US" then ["united-states", "united_states", "united states", "usa"]
    else if r = "JP" then ["japan"]
    else if r = "GB" then ["united-kingdom", "united_kingdom", "united kingdom"]
    else if r = "DE" then ["germany"]
    else if r = "FR" then ["france"]
    else if r = "IN" then ["india"]
    else if r = "BR" then ["brazil"]
    else if r = "CA" then ["canada"]
    else if r = "AU" then ["australia"]
    else ["south-korea"]
  let candidates := if "worldwide" ∈ base then base else base ++ ["worldwide"]
  uniqSeen [] candidates

/-- `_fetch_with_retry`: skipped entirely when the pytrends import
failed, otherwise the 5-attempt retry loop over the pn candidates. -/
def fetchWithRetry (env : Env) (cfg : TrendConfig) (region : String)
    (limit : Nat) : FetchRes :=
  if env.pytrendsOk then
    retryLoop env cfg (pnCandidates region) limit 0 5
  else { items := [], attempts := 0, sleepLog := [] }

/-- Count of Hangul characters of a word (`'가' <= ch <= '힣'`). -/
def hangulCount (w : String) : Nat :=
  w.data.countP fun ch => decide ('가' ≤ ch ∧ ch ≤ '힣')

/-- Count of Latin characters of a word (`'a' <= ch.lower() <= 'z'`). -/
def latinCount (w : String) : Nat :=
  w.data.countP fun ch => decide ('a' ≤ ch.toLower ∧ ch.toLower ≤ 'z')

/-- The `_score` ranking key `(-hangul, len(w), latin)` compared
lexicographically, as Python `sorted` compares tuples. -/
def scoreLe (a b : String) : Bool :=
  let ha : Int := -(hangulCount a : Int)
  let hb : Int := -(hangulCount b : Int)
  if ha ≠ hb then ha < hb
  else if a.length ≠ b.length then a.length < b.length
  else latinCount a ≤ latinCount b

/-- The inner `for s in sugg` loop of `_fetch_from_naver_backup`:
strip, drop words of length `< 2`, drop words already seen (the `seen`
set always holds exactly the collected words), stop once
`limit * 2` words are collected. -/
def collectInner (limit2 : Nat) (acc : List String) : List String → List String
  | [] => acc
  | s :: rest =>
    let s2 := pyStrip s
    if s2.length < 2 then collectInner limit2 acc rest
    else if s2 ∈ acc then collectInner limit2 acc rest
    else
      let acc2 := acc ++ [s2]
      if limit2 ≤ acc2.length then acc2 else collectInner limit2 acc2 rest

/-- The outer `for seed in seeds[:30]` loop of
`_fetch_from_naver_backup`: an empty suggestion list is skipped
(`continue`, bypassing the break check); otherwise its words are
collected and the loop breaks once `limit * 2` words are collected. -/
def collectOuter (env : Env) (limit2 : Nat) (acc : List String) :
    List String → List String
  | [] => acc
  | seed :: rest =>
    let sugg := env.suggest seed
    if sugg = [] then collectOuter env limit2 acc rest
    else
      let acc2 := collectInner limit2 acc sugg
      if limit2 ≤ acc2.length then acc2 else collectOuter env limit2 acc2 rest

/-- The seed terms of the backup source:
`[s.strip() for s in cfg.naver_seed.split(",") if s.strip()]`. -/
def naverSeedTerms (cfg : TrendConfig) : List String :=
  ((pySplitComma cfg.naver_seed).map pyStrip).filter (· ≠ "")

/-- The date-seeded shuffle of the seed terms performed by
`_fetch_from_naver_backup`:
`rng = random.Random(int(datetime.now().strftime("%Y%m%d")))`,
`rng.shuffle(seeds)`. -/
def naverShuffledSeeds (clock : Clock) (cfg : TrendConfig) : List String :=
  pyShuffle clock.ymd (naverSeedTerms cfg)

/-- `TrendClient._fetch_from_naver_backup`: empty when importing the
`requests` module fails; otherwise collect suggestions over the shuffled seeds
(at most 30 of them), rank by `_score` and return the top `limit`. -/
def naverBackup (env : Env) (cfg : TrendConfig) (limit : Nat) : List String :=
  if env.requestsOk then
    let seeds := naverShuffledSeeds env.clock cfg
    let collected := collectOuter env (limit * 2) [] (seeds.take 30)
    let uniq_sorted := pySorted scoreLe collected
    uniq_sorted.take limit
  else []

/-- Result of `_backfill_from_recent_cache` plus its trace: `probed`
lists the day indices whose cache file existed and was opened (in scan
order), i.e. exactly the entries the resolver inspected. -/
structure BackfillRes where
  items : List String
  probed : List Int
deriving DecidableEq

/-- The `for i in range(1, max(1, backfill_days) + 1)` loop of
`_backfill_from_recent_cache`: for each offset `i` the file for day
`today - i` is skipped when absent, otherwise opened; a raising load or
a non-list or empty payload falls through to the next day, and the
first non-empty list is returned truncated to `limit`. -/
def backfillScan (cache : CacheState) (today : Int) (limit : Nat) :
    List Nat → BackfillRes
  | [] => { items := [], probed := [] }
  | i :: rest =>
    let d := today - (i : Int)
    match cache d with
    | none => backfillScan cache today limit rest
    | some e =>
      match e.load with
      | .error _ =>
        let r := backfillScan cache today limit rest
        { items := r.items, probed := d :: r.probed }
      | .ok .nonList =>
        let r := backfillScan cache today limit rest
        { items := r.items, probed := d :: r.probed }
      | .ok (.list xs) =>
        if xs = [] then
          let r := backfillScan cache today limit rest
          { items := r.items, probed := d :: r.probed }
        else { items := xs.take limit, probed := [d] }

/-- `TrendClient._backfill_from_recent_cache`. -/
def backfillFromRecentCache (env : Env) (cfg : TrendConfig) (limit : Nat) :
    BackfillRes :=
  backfillScan env.cache env.clock.today limit
    (List.range' 1 (max 1 cfg.backfill_days).toNat)

/-- The fixed built-in candidate pool of `_default_keywords`. -/
def defaultPool : List String :=
  ["Windows 95", "레트로", "픽셀아트", "디지털 아트", "AI 이미지",
   "미니멀 디자인", "테크 뉴스", "개발자 팁", "트렌드", "인스타그램",
   "콘텐츠 제작", "오토메이션", "프롬프트", "캡션", "해시태그",
   "스타트데스크", "fromstartdesk", "갤러리", "툴킷", "워크플로우",
   "클라우드", "파이썬", "Next.js", "Supabase", "오픈소스"]

/-- The character-code sum `sum(map(ord, region))`. -/
def sumOrds (region : String) : Nat :=
  (region.data.map Char.toNat).sum

/-- `TrendClient._default_keywords`: shuffle the pool with seed
`int(now.strftime("%Y%m%d")) ^ sum(map(ord, region))` and take the
first `max(5, limit)` items. -/
def defaultKeywords (clock : Clock) (region : String) (limit : Nat) :
    List String :=
  let seed := clock.ymd ^^^ sumOrds region
  (pyShuffle seed defaultPool).take (max 5 limit)

/-- The terminal tier of one `get_daily_keywords` call. -/
inductive Tier
  | cacheHit
  | primary
  | backup
  | backfill
  | defaults
  | exhausted
deriving DecidableEq

/-- Result of one `get_daily_keywords` call plus its observable trace:
the attempted cache writes (date, full payload), whether the primary
fetch (`_fetch_with_retry`) was invoked, its trace, and the backfill
probe trace. -/
structure GRes where
  result : List String
  tier : Tier
  writes : List (Int × List String)
  primaryInvoked : Bool
  fetch : FetchRes
  backfillProbed : List Int

/-- Tiers 2–6 of `get_daily_keywords` (everything after the cache
check): Google fetch, optional Naver backup, backfill, optional
defaults, exhausted.  Every terminal branch here performs one cache
write of the untruncated payload and returns it truncated to
`limit`. -/
def gdkFallbackTiers (env : Env) (cfg : TrendConfig) (targetDate : Int)
    (region : String) (limit : Nat) : GRes :=
  let f := fetchWithRetry env cfg region limit
  if f.items ≠ [] then
    { result := f.items.take limit, tier := .primary,
      writes := [(targetDate, f.items)], primaryInvoked := true,
      fetch := f, backfillProbed := [] }
  else
    let naver_items := if cfg.use_naver_backup then naverBackup env cfg limit else []
    if cfg.use_naver_backup ∧ naver_items ≠ [] then
      { result := naver_items.take limit, tier := .backup,
        writes := [(targetDate, naver_items)], primaryInvoked := true,
        fetch := f, backfillProbed := [] }
    else
      let b := backfillFromRecentCache env cfg limit
      if b.items ≠ [] then
        { result := b.items.take limit, tier := .backfill,
          writes := [(targetDate, b.items)], primaryInvoked := true,
          fetch := f, backfillProbed := b.probed }
      else if cfg.allow_defaults then
        let defaults := defaultKeywords env.clock region limit
        { result := defaults.take limit, tier := .defaults,
          writes := [(targetDate, defaults)], primaryInvoked := true,
          fetch := f, backfillProbed := b.probed }
      else
        { result := [], tier := .exhausted,
          writes := [(targetDate, [])], primaryInvoked := true,
          fetch := f, backfillProbed := b.probed }

/-- `TrendClient.get_daily_keywords`: resolve the target date and
region, return a fresh non-empty cache hit truncated to `limit`
(no write), otherwise run the fallback tiers. -/
def getDailyKeywords (env : Env) (cfg : TrendConfig)
    (date : Option Int) (region : Option String) (limit : Nat) : GRes :=
  let targetDate := date.getD env.clock.today
  let r := pyUpper (region.getD cfg.region_default)
  let cread := readCacheIfFresh cfg env.clock.now env.cache targetDate
  match cread.1 with
  | some cached =>
    if 0 < cached.length then
      { result := cached.take limit, tier := .cacheHit, writes := [],
        primaryInvoked := false,
        fetch := { items := [], attempts := 0, sleepLog := [] },
        backfillProbed := [] }
    else gdkFallbackTiers env cfg targetDate r limit
  | none => gdkFallbackTiers env cfg targetDate r limit

/-- A raw TTL-ignoring cache read as §4.5 of the spec words it for the
backfill resolver: the entry for a day, provided it exists, decodes as
a list and is non-empty; `none` otherwise. -/
def rawCacheRead (cache : CacheState) (d : Int) : Option (List String) :=
  match cache d with
  | none => none
  | some e =>
    match e.load with
    | .ok (.list xs) => if xs = [] then none else some xs
    | _ => none

/-- The backfill result as the spec words it: walk the offsets in
order and return the first non-empty raw hit truncated to `limit`,
empty if none.  Stated as a reference to compare `backfillScan`
against. -/
def backfillSpecFirstHit (cache : CacheState) (today : Int) (limit : Nat) :
    List Nat → List String
  | [] => []
  | i :: rest =>
    match rawCacheRead cache (today - (i : Int)) with
    | some xs => xs.take limit
    | none => backfillSpecFirstHit cache today limit rest

/-- Total failure of the outside world: every cache file read raises,
every network fetch of the primary source raises, and every suggestion
query of the backup source comes back empty. -/
structure AllFail (env : Env) : Prop where
  cacheFail : ∀ d e, env.cache d = some e →
    (∃ s, e.stat = Except.error s) ∧ (∃ s, e.load = Except.error s)
  netFail : ∀ k pn, env.sweep k pn = SweepOutcome.raise
  suggestFail : ∀ s, env.suggest s = []

/-- A fixed wall clock for the concrete test environments. -/
def clockW : Clock := { now := 1000000, today := 300, ymd := 20251012 }

/-- A concrete environment in which every tier fails: no cache files,
every primary-source sweep raises, every backup suggestion is empty. -/
def envAllFail : Env :=
  { clock := clockW, cache := fun _ => none, pytrendsOk := true,
    trendReq := fun _ => .ok (), sweep := fun _ _ => .raise,
    jitter := fun _ => 1, requestsOk := true, suggest := fun _ => [] }

/-- A cache entry that is present and loads as the non-empty list
`["a", "b", "c"]`, with modification time 999000 (fresh relative to
`clockW`). -/
def entryAbc : Entry :=
  { stat := .ok 999000, load := .ok (.list ["a", "b", "c"]) }

/-- A cache entry that is present and loads as the empty list (what
the Exhausted tier writes), fresh relative to `clockW`. -/
def entryEmpty : Entry :=
  { stat := .ok 999000, load := .ok (.list []) }

/-- The all-failing environment with a fresh non-empty cache entry for
the target date (day 300). -/
def envFreshHit : Env :=
  { envAllFail with
    cache := fun d => if d = 300 then some entryAbc else none }

/-- The all-failing environment with a fresh but empty cache entry for
the target date (day 300). -/
def envFreshEmpty : Env :=
  { envAllFail with
    cache := fun d => if d = 300 then some entryEmpty else none }

/-- The all-failing environment with a readable non-empty cache entry
one day in the past (day 299). -/
def envYesterday : Env :=
  { envAllFail with
    cache := fun d =>
      if d = 299 then some { stat := .ok 0, load := .ok (.list ["old"]) }
      else none }

/-- The all-failing environment with zero jitter. -/
def envZeroJitter : Env := { envAllFail with jitter := fun _ => 0 }

/-- A configuration whose sleep bounds are inverted
(`sleep_min > sleep_max * 4`). -/
def cfgInverted : TrendConfig := { sleep_min := 8, sleep_max := 1 }

/-- A configuration with defaults disabled but the backup source still
enabled (its dataclass default). -/
def cfgNoDefaults : TrendConfig := { allow_defaults := false }

/-- A configuration with a zero-day backfill window. -/
def cfgWindowZero : TrendConfig := { backfill_days := 0 }

/-- A second wall clock: different timestamp and day index, same
`YYYYMMDD` integer as `clockW`. -/
def clockW2 : Clock := { now := 555, today := 123, ymd := 20251012 }

/-! ### Supporting lemmas -/

/-- `pymax` agrees with the mathematical `max` on `ℚ`. -/
theorem pymax_eq_max (a b : ℚ) : pymax a b = max a b := (max_def a b).symm

/-- `pymin` agrees with the mathematical `min` on `ℚ`. -/
theorem pymin_eq_min (a b : ℚ) : pymin a b = min a b := (min_def a b).symm

/-- The shuffle auxiliary preserves the length when given enough fuel. -/
theorem pyShuffleAux_length :
    ∀ (fuel : Nat) (seed : Nat) (xs : List String), xs.length ≤ fuel →
      (pyShuffleAux seed fuel xs).length = xs.length := by
  intro fuel
  induction fuel with
  | zero =>
    intro seed xs h
    rw [List.length_eq_zero.mp (Nat.le_zero.mp h)]
    rfl
  | succ n ih =>
    intro seed xs h
    match xs with
    | [] => rfl
    | x :: rest =>
      have hi : seed % (rest.length + 1) < (x :: rest).length := by
        simp [Nat.mod_lt]
      have hlen : ((x :: rest).eraseIdx (seed % (rest.length + 1))).length
          = rest.length := by
        rw [List.length_eraseIdx_of_lt hi]
        simp
      have hr : rest.length ≤ n := by
        simp only [List.length_cons] at h
        omega
      simp only [pyShuffleAux, List.length_cons]
      rw [ih _ _ (by rw [hlen]; exact hr), hlen]

/-- `pyShuffle` preserves the length of the list. -/
theorem pyShuffle_length (seed : Nat) (xs : List String) :
    (pyShuffle seed xs).length = xs.length :=
  pyShuffleAux_length xs.length seed xs (Nat.le_refl _)

/-- Taking a positive number of elements of a non-empty list is
non-empty. -/
theorem take_ne_nil_of_pos {xs : List String} {n : Nat}
    (hx : xs ≠ []) (hn : 1 ≤ n) : xs.take n ≠ [] := by
  match xs, n with
  | x :: rest, m + 1 => simp [List.take]

/-- If every candidate raises, the candidate sweep collects nothing. -/
theorem sweepCandidates_allraise (env : Env) (k : Nat)
    (h : ∀ pn, env.sweep k pn = SweepOutcome.raise) :
    ∀ cands, sweepCandidates env k cands = [] := by
  intro cands
  induction cands with
  | nil => rfl
  | cons pn rest ih => simp [sweepCandidates, h pn, ih]

/-- Under total network failure every attempt of the retry loop comes
back empty. -/
theorem attemptOnce_allraise (env : Env) (cands : List String) (k : Nat)
    (h : ∀ pn, env.sweep k pn = SweepOutcome.raise) :
    attemptOnce env cands k = [] := by
  unfold attemptOnce
  match env.trendReq k with
  | .error _ => rfl
  | .ok _ => exact sweepCandidates_allraise env k h cands

/-- The attempt counter of the retry loop never exceeds
`attempt + fuel`. -/
theorem retryLoop_attempts_le (env : Env) (cfg : TrendConfig)
    (cands : List String) (limit : Nat) :
    ∀ (fuel attempt : Nat),
      (retryLoop env cfg cands limit attempt fuel).attempts ≤ attempt + fuel := by
  intro fuel
  induction fuel with
  | zero =>
    intro attempt
    simp only [retryLoop]
    omega
  | succ n ih =>
    intro attempt
    simp only [retryLoop]
    by_cases hi : attemptOnce env cands (attempt + 1) = []
    · rw [if_pos hi]
      by_cases h5 : 5 ≤ attempt + 1
      · rw [if_pos h5]
        dsimp only
        omega
      · rw [if_neg h5]
        dsimp only
        have := ih (attempt + 1)
        omega
    · rw [if_neg hi]
      dsimp only
      omega

/-- If every attempt among the first five fails, the retry loop
returns the empty list after exactly `attempt + fuel` attempts. -/
theorem retryLoop_allfail (env : Env) (cfg : TrendConfig)
    (cands : List String) (limit : Nat)
    (h : ∀ k, 1 ≤ k → k ≤ 5 → attemptOnce env cands k = []) :
    ∀ (fuel attempt : Nat), attempt + fuel = 5 →
      (retryLoop env cfg cands limit attempt fuel).items = [] ∧
      (retryLoop env cfg cands limit attempt fuel).attempts = 5 := by
  intro fuel
  induction fuel with
  | zero =>
    intro attempt h5
    simp only [retryLoop]
    exact ⟨trivial, by omega⟩
  | succ n ih =>
    intro attempt h5
    simp only [retryLoop]
    rw [if_pos (h (attempt + 1) (by omega) (by omega))]
    by_cases h5a : 5 ≤ attempt + 1
    · rw [if_pos h5a]
      dsimp only
      exact ⟨rfl, by omega⟩
    · rw [if_neg h5a]
      dsimp only
      exact ih (attempt + 1) (by omega)

/-- Under total network failure `_fetch_with_retry` returns no items. -/
theorem fetchWithRetry_allfail (env : Env) (cfg : TrendConfig)
    (region : String) (limit : Nat)
    (h : ∀ k pn, env.sweep k pn = SweepOutcome.raise) :
    (fetchWithRetry env cfg region limit).items = [] := by
  unfold fetchWithRetry
  split
  · exact (retryLoop_allfail env cfg (pnCandidates region) limit
      (fun k h1 h2 => attemptOnce_allraise env _ k (h k)) 5 0 rfl).1
  · rfl

/-- If every suggestion query is empty, the collection loop collects
nothing beyond its accumulator. -/
theorem collectOuter_allfail (env : Env) (limit2 : Nat)
    (h : ∀ s, env.suggest s = []) :
    ∀ (seeds : List String) (acc : List String),
      collectOuter env limit2 acc seeds = acc := by
  intro seeds
  induction seeds with
  | nil => intro acc; rfl
  | cons s rest ih => intro acc; simp [collectOuter, h s, ih]

/-- Under total suggestion failure the Naver backup returns no items. -/
theorem naverBackup_allfail (env : Env) (cfg : TrendConfig) (limit : Nat)
    (h : ∀ s, env.suggest s = []) :
    naverBackup env cfg limit = [] := by
  unfold naverBackup
  split
  · simp only [collectOuter_allfail env (limit * 2) h]
    simp [pySorted]
  · rfl

/-- If every readable cache file raises on load, the backfill scan
finds no items. -/
theorem backfillScan_allfail (cache : CacheState) (today : Int) (limit : Nat)
    (h : ∀ d e, cache d = some e → ∃ s, e.load = Except.error s) :
    ∀ is, (backfillScan cache today limit is).items = [] := by
  intro is
  induction is with
  | nil => rfl
  | cons i rest ih =>
    simp only [backfillScan]
    rcases hc : cache (today - (i : Int)) with _ | e
    · exact ih
    · obtain ⟨s, hs⟩ := h _ e hc
      dsimp only
      rw [hs]
      exact ih

/-- If every cache file read raises on stat, the fresh-cache read
misses. -/
theorem readCacheIfFresh_statfail (cfg : TrendConfig) (now : Int)
    (cache : CacheState) (d : Int)
    (h : ∀ e, cache d = some e → ∃ s, e.stat = Except.error s) :
    (readCacheIfFresh cfg now cache d).1 = none := by
  unfold readCacheIfFresh
  rcases hc : cache d with _ | e
  · rfl
  · obtain ⟨s, hs⟩ := h e hc
    dsimp only
    rw [hs]

/-- Every branch of the fallback tiers marks the primary fetch as
invoked and none of them is the cache-hit tier. -/
theorem gdkFallbackTiers_primary (env : Env) (cfg : TrendConfig)
    (td : Int) (region : String) (limit : Nat) :
    (gdkFallbackTiers env cfg td region limit).primaryInvoked = true ∧
    (gdkFallbackTiers env cfg td region limit).tier ≠ Tier.cacheHit := by
  simp only [gdkFallbackTiers]
  repeat' split
  all_goals exact ⟨rfl, by simp⟩

/-- Every branch of the fallback tiers returns at most `limit`
keywords. -/
theorem gdkFallbackTiers_length (env : Env) (cfg : TrendConfig)
    (td : Int) (region : String) (limit : Nat) :
    (gdkFallbackTiers env cfg td region limit).result.length ≤ limit := by
  simp only [gdkFallbackTiers]
  repeat' split
  all_goals simp [List.length_take]

/-- When the primary fetch, the backup and the backfill all come back
empty, the fallback tiers end in defaults (when enabled) or
exhaustion. -/
theorem gdkFallbackTiers_allempty (env : Env) (cfg : TrendConfig)
    (td : Int) (region : String) (limit : Nat)
    (hf : (fetchWithRetry env cfg region limit).items = [])
    (hn : naverBackup env cfg limit = [])
    (hb : (backfillFromRecentCache env cfg limit).items = []) :
    (gdkFallbackTiers env cfg td region limit).tier
        = cond cfg.allow_defaults Tier.defaults Tier.exhausted ∧
    (gdkFallbackTiers env cfg td region limit).result
        = cond cfg.allow_defaults
            ((defaultKeywords env.clock region limit).take limit) [] ∧
    (gdkFallbackTiers env cfg td region limit).primaryInvoked = true := by
  simp only [gdkFallbackTiers, hf, hn, hb, ne_eq, not_true_eq_false,
    ite_self, and_false, if_false]
  cases hd : cfg.allow_defaults <;> simp [hd]

/-- Under total failure of the outside world the call falls through
every tier and terminates in defaults (when enabled) or exhaustion,
with the primary tier having been tried. -/
theorem gdk_allfail (env : Env) (cfg : TrendConfig) (date : Option Int)
    (region : Option String) (limit : Nat) (hA : AllFail env) :
    (getDailyKeywords env cfg date region limit).tier
        = cond cfg.allow_defaults Tier.defaults Tier.exhausted ∧
    (getDailyKeywords env cfg date region limit).result
        = cond cfg.allow_defaults
            ((defaultKeywords env.clock
                (pyUpper (region.getD cfg.region_default)) limit).take limit)
            [] ∧
    (getDailyKeywords env cfg date region limit).primaryInvoked = true := by
  have hread : (readCacheIfFresh cfg env.clock.now env.cache
      (date.getD env.clock.today)).1 = none :=
    readCacheIfFresh_statfail _ _ _ _ (fun e he => (hA.cacheFail _ e he).1)
  have hf := fetchWithRetry_allfail env cfg
    (pyUpper (region.getD cfg.region_default)) limit hA.netFail
  have hn := naverBackup_allfail env cfg limit hA.suggestFail
  have hb : (backfillFromRecentCache env cfg limit).items = [] :=
    backfillScan_allfail _ _ _ (fun d e he => (hA.cacheFail d e he).2) _
  simp only [getDailyKeywords, hread]
  exact gdkFallbackTiers_allempty env cfg _ _ limit hf hn hb

/-- The default keyword list has `min (max 5 limit) 25` elements. -/
theorem defaultKeywords_length (clock : Clock) (region : String)
    (limit : Nat) :
    (defaultKeywords clock region limit).length = min (max 5 limit) 25 := by
  unfold defaultKeywords
  rw [List.length_take, pyShuffle_length]
  rfl

/-- The default keyword list is never empty. -/
theorem defaultKeywords_ne_nil (clock : Clock) (region : String)
    (limit : Nat) : defaultKeywords clock region limit ≠ [] := by
  intro h
  have hlen := defaultKeywords_length clock region limit
  rw [h] at hlen
  simp at hlen
  omega

/-- When defaults are enabled and `limit ≥ 1`, the fallback tiers never
return an empty list. -/
theorem gdkFallbackTiers_ne_nil (env : Env) (cfg : TrendConfig)
    (td : Int) (region : String) (limit : Nat)
    (hd : cfg.allow_defaults = true) (hl : 1 ≤ limit) :
    (gdkFallbackTiers env cfg td region limit).result ≠ [] := by
  simp only [gdkFallbackTiers]
  repeat' split
  all_goals
    first
      | exact absurd hd (by assumption)
      | exact take_ne_nil_of_pos (by assumption) hl
      | exact take_ne_nil_of_pos (And.right (by assumption)) hl
      | exact take_ne_nil_of_pos (defaultKeywords_ne_nil env.clock region limit) hl

/-- When defaults are enabled and `limit ≥ 1`, `get_daily_keywords`
never returns an empty list. -/
theorem gdk_ne_nil (env : Env) (cfg : TrendConfig) (date : Option Int)
    (region : Option String) (limit : Nat)
    (hd : cfg.allow_defaults = true) (hl : 1 ≤ limit) :
    (getDailyKeywords env cfg date region limit).result ≠ [] := by
  simp only [getDailyKeywords]
  split
  · split
    · exact take_ne_nil_of_pos (List.length_pos.mp (by assumption)) hl
    · exact gdkFallbackTiers_ne_nil env cfg _ _ limit hd hl
  · exact gdkFallbackTiers_ne_nil env cfg _ _ limit hd hl

/-- The backfill scan agrees with the first-hit reading of §4.5. -/
theorem backfillScan_eq_firstHit (cache : CacheState) (today : Int)
    (limit : Nat) :
    ∀ is, (backfillScan cache today limit is).items
      = backfillSpecFirstHit cache today limit is := by
  intro is
  induction is with
  | nil => rfl
  | cons i rest ih =>
    simp only [backfillScan, backfillSpecFirstHit, rawCacheRead]
    rcases hc : cache (today - (i : Int)) with _ | e
    · exact ih
    · dsimp only
      rcases hl : e.load with s | j
      · exact ih
      · rcases j with xs | _
        · dsimp only
          by_cases hx : xs = []
          · rw [if_pos hx, if_pos hx]
            exact ih
          · rw [if_neg hx, if_neg hx]
        · exact ih

/-- Every day probed by the backfill scan comes from the offset list. -/
theorem backfillScan_probed (cache : CacheState) (today : Int)
    (limit : Nat) :
    ∀ is, ∀ d ∈ (backfillScan cache today limit is).probed,
      ∃ i ∈ is, d = today - (i : Int) := by
  intro is
  induction is with
  | nil => intro d hd; simp [backfillScan] at hd
  | cons i rest ih =>
    intro d hd
    simp only [backfillScan] at hd
    rcases hc : cache (today - (i : Int)) with _ | e
    · rw [hc] at hd
      obtain ⟨j, hj, he⟩ := ih d hd
      exact ⟨j, List.mem_cons_of_mem i hj, he⟩
    · rw [hc] at hd
      dsimp only at hd
      rcases hl : e.load with s | jd
      · rw [hl] at hd
        dsimp only at hd
        rcases List.mem_cons.mp hd with h1 | h2
        · exact ⟨i, List.mem_cons_self i rest, h1⟩
        · obtain ⟨j, hj, he⟩ := ih d h2
          exact ⟨j, List.mem_cons_of_mem i hj, he⟩
      · rcases jd with xs | _
        · rw [hl] at hd
          dsimp only at hd
          by_cases hx : xs = []
          · rw [if_pos hx] at hd
            dsimp only at hd
            rcases List.mem_cons.mp hd with h1 | h2
            · exact ⟨i, List.mem_cons_self i rest, h1⟩
            · obtain ⟨j, hj, he⟩ := ih d h2
              exact ⟨j, List.mem_cons_of_mem i hj, he⟩
          · rw [if_neg hx] at hd
            dsimp only at hd
            rcases List.mem_singleton.mp hd with h1
            exact ⟨i, List.mem_cons_self i rest, h1⟩
        · rw [hl] at hd
          dsimp only at hd
          rcases List.mem_cons.mp hd with h1 | h2
          · exact ⟨i, List.mem_cons_self i rest, h1⟩
          · obtain ⟨j, hj, he⟩ := ih d h2
            exact ⟨j, List.mem_cons_of_mem i hj, he⟩

/-- Every attempt recorded in the sleep log of the retry loop lies
between `attempt + 1` and 4 (a sleep never follows the fifth
attempt). -/
theorem retryLoop_sleepLog_range (env : Env) (cfg : TrendConfig)
    (cands : List String) (limit : Nat) :
    ∀ (fuel attempt : Nat),
      ∀ a ∈ (retryLoop env cfg cands limit attempt fuel).sleepLog,
        attempt + 1 ≤ a ∧ a ≤ 4 := by
  intro fuel
  induction fuel with
  | zero =>
    intro attempt a ha
    simp [retryLoop] at ha
  | succ n ih =>
    intro attempt a ha
    simp only [retryLoop] at ha
    by_cases hi : attemptOnce env cands (attempt + 1) = []
    · rw [if_pos hi] at ha
      by_cases h5 : 5 ≤ attempt + 1
      · rw [if_pos h5] at ha
        simp at ha
      · rw [if_neg h5] at ha
        dsimp only at ha
        rcases List.mem_cons.mp ha with h1 | h2
        · omega
        · have := ih (attempt + 1) a h2
          omega
    · rw [if_neg hi] at ha
      simp at ha

/-- Every attempt recorded in the sleep log of `_fetch_with_retry`
lies between 1 and 4. -/
theorem fetchWithRetry_sleepLog_range (env : Env) (cfg : TrendConfig)
    (region : String) (limit : Nat) :
    ∀ a ∈ (fetchWithRetry env cfg region limit).sleepLog,
      1 ≤ a ∧ a ≤ 4 := by
  intro a ha
  unfold fetchWithRetry at ha
  split at ha
  · exact retryLoop_sleepLog_range env cfg (pnCandidates region) limit 5 0 a ha
  · simp at ha

/-! ### Claim theorems -/

/-- C1: for every call to `get_daily_keywords` with a non-negative
integer limit, the returned value is an ordered list of strings whose
length is at most `limit`, on every terminal tier of the fallback
chain. -/
theorem C1_gdk_length_le_limit (env : Env) (cfg : TrendConfig)
    (date : Option Int) (region : Option String) (limit : Nat) :
    (getDailyKeywords env cfg date region limit).result.length ≤ limit := by
  simp only [getDailyKeywords]
  split
  · split
    · simp [List.length_take]
    · exact gdkFallbackTiers_length env cfg _ _ limit
  · exact gdkFallbackTiers_length env cfg _ _ limit

/-- C2: `get_daily_keywords` always returns a list and never
propagates an exception to its caller: in the embedding every
fallible primitive of the environment carries an explicit failure
case handled where the source has its `try/except`, the function is
total over all environments, and even when every cache read raises,
every network fetch raises and every backup suggestion is empty, the
call terminates normally in the defaults (or exhausted) tier with an
ordinary list. -/
theorem C2_gdk_absorbs_failures (env : Env) (cfg : TrendConfig)
    (date : Option Int) (region : Option String) (limit : Nat)
    (hA : AllFail env) :
    (getDailyKeywords env cfg date region limit).tier
        = cond cfg.allow_defaults Tier.defaults Tier.exhausted ∧
    (getDailyKeywords env cfg date region limit).result
        = cond cfg.allow_defaults
            ((defaultKeywords env.clock
                (pyUpper (region.getD cfg.region_default)) limit).take limit)
            [] := by
  have h := gdk_allfail env cfg date region limit hA
  exact ⟨h.1, h.2.1⟩

/-- C2 witness: the theorem applied to the concrete all-failing
environment. -/
theorem C2_gdk_absorbs_failures_witness :
    (getDailyKeywords envAllFail {} none none 7).tier = Tier.defaults :=
  (C2_gdk_absorbs_failures envAllFail {} none none 7
    ⟨(fun _ _ h => nomatch h), (fun _ _ => rfl), (fun _ => rfl)⟩).1

/-- C3 counterexample: with the backup source enabled (and defaults
disabled), a call in which every live source fails still returns the
empty list — so an enabled backup source does not guarantee a
non-empty result, contrary to the claim. -/
theorem C3_counterexample :
    cfgNoDefaults.use_naver_backup = true ∧
    cfgNoDefaults.allow_defaults = false ∧
    (getDailyKeywords envAllFail cfgNoDefaults none none 10).result = [] := by
  refine ⟨rfl, rfl, ?_⟩
  decide

/-- C3 (amended): whenever `allow_defaults` is enabled and
`limit ≥ 1`, `get_daily_keywords` returns a non-empty list; the empty
list can only be returned when `limit = 0` or defaults are disabled
(an enabled backup source alone does not prevent emptiness). -/
theorem C3_gdk_nonempty_of_defaults (env : Env) (cfg : TrendConfig)
    (date : Option Int) (region : Option String) (limit : Nat)
    (hd : cfg.allow_defaults = true) (hl : 1 ≤ limit) :
    (getDailyKeywords env cfg date region limit).result ≠ [] :=
  gdk_ne_nil env cfg date region limit hd hl

/-- C3 witness: the amended theorem applied to the concrete all-failing
environment with the default configuration and `limit = 3`. -/
theorem C3_gdk_nonempty_of_defaults_witness :
    (getDailyKeywords envAllFail {} none none 3).result ≠ [] :=
  C3_gdk_nonempty_of_defaults envAllFail {} none none 3 rfl (by decide)

/-- C4 counterexample: the cache holds a fresh entry for the target
date, yet because that entry decodes to the empty list the call does
invoke the primary fetch and does perform a cache write — the claim
only holds for fresh *non-empty* entries. -/
theorem C4_counterexample :
    envFreshEmpty.cache 300 = some entryEmpty ∧
    entryEmpty.stat = Except.ok 999000 ∧
    envFreshEmpty.clock.now - 999000
        ≤ ({} : TrendConfig).cache_ttl_days * 86400 ∧
    entryEmpty.load = Except.ok (JsonData.list []) ∧
    (getDailyKeywords envFreshEmpty {} none none 10).primaryInvoked = true ∧
    (getDailyKeywords envFreshEmpty {} none none 10).writes ≠ [] := by
  decide

/-- C4 (amended): when the cache store holds a fresh *non-empty* entry
for the target date, `get_daily_keywords` returns that cached list
truncated to `limit`, performs no cache write, and never invokes the
primary fetch. -/
theorem C4_gdk_fresh_cache_shortcircuit (env : Env) (cfg : TrendConfig)
    (date : Option Int) (region : Option String) (limit : Nat)
    (e : Entry) (xs : List String) (mtime : Int)
    (hc : env.cache (date.getD env.clock.today) = some e)
    (hstat : e.stat = Except.ok mtime)
    (hfresh : env.clock.now - mtime ≤ cfg.cache_ttl_days * 86400)
    (hload : e.load = Except.ok (JsonData.list xs))
    (hne : xs ≠ []) :
    (getDailyKeywords env cfg date region limit).result = xs.take limit ∧
    (getDailyKeywords env cfg date region limit).writes = [] ∧
    (getDailyKeywords env cfg date region limit).primaryInvoked = false := by
  have hr : readCacheIfFresh cfg env.clock.now env.cache
      (date.getD env.clock.today) = (some xs, "fresh") := by
    unfold readCacheIfFresh
    rw [hc]
    dsimp only
    rw [hstat]
    dsimp only
    rw [if_pos hfresh, hload]
  simp only [getDailyKeywords, hr]
  rw [if_pos (List.length_pos.mpr hne)]
  exact ⟨rfl, rfl, rfl⟩

/-- C4 witness: the amended theorem applied to the environment with a
fresh `["a", "b", "c"]` entry for the target date. -/
theorem C4_gdk_fresh_cache_shortcircuit_witness :
    (getDailyKeywords envFreshHit {} none none 2).result
        = ["a", "b", "c"].take 2 ∧
    (getDailyKeywords envFreshHit {} none none 2).writes = [] ∧
    (getDailyKeywords envFreshHit {} none none 2).primaryInvoked = false :=
  C4_gdk_fresh_cache_shortcircuit envFreshHit {} none none 2 entryAbc
    ["a", "b", "c"] 999000 (by decide) rfl (by decide) rfl (by decide)

/-- C5: the primary-source fetch performs at most 5 attempts in total,
and when pytrends is available and all five candidate sweeps fail, it
returns the empty list (after exactly 5 attempts) instead of raising. -/
theorem C5_fetch_bounded_attempts (env : Env) (cfg : TrendConfig)
    (region : String) (limit : Nat) :
    (fetchWithRetry env cfg region limit).attempts ≤ 5 ∧
    (env.pytrendsOk = true →
      (∀ k, 1 ≤ k → k ≤ 5 → attemptOnce env (pnCandidates region) k = []) →
      (fetchWithRetry env cfg region limit).items = [] ∧
      (fetchWithRetry env cfg region limit).attempts = 5) := by
  constructor
  · unfold fetchWithRetry
    split
    · simpa using retryLoop_attempts_le env cfg (pnCandidates region) limit 5 0
    · simp
  · intro hp hfail
    unfold fetchWithRetry
    rw [if_pos hp]
    exact retryLoop_allfail env cfg (pnCandidates region) limit hfail 5 0 rfl

/-- C5 witness: the theorem applied to the concrete all-failing
environment, in which every attempt indeed fails. -/
theorem C5_fetch_bounded_attempts_witness :
    (fetchWithRetry envAllFail {} "KR" 10).attempts ≤ 5 ∧
    (fetchWithRetry envAllFail {} "KR" 10).items = [] ∧
    (fetchWithRetry envAllFail {} "KR" 10).attempts = 5 :=
  ⟨(C5_fetch_bounded_attempts envAllFail {} "KR" 10).1,
   (C5_fetch_bounded_attempts envAllFail {} "KR" 10).2 rfl
     (fun k _ _ => attemptOnce_allraise envAllFail _ k (fun _ => rfl))⟩

/-- C6 counterexample: with `backfill_days = 0` the resolver still
inspects (and returns) the entry dated one day before today, which is
older than the configured window — the loop bound is
`max(1, backfill_days)`, not `backfill_days`. -/
theorem C6_counterexample :
    cfgWindowZero.backfill_days = 0 ∧
    (backfillFromRecentCache envYesterday cfgWindowZero 5).probed = [299] ∧
    (backfillFromRecentCache envYesterday cfgWindowZero 5).items = ["old"] ∧
    ¬ (envYesterday.clock.today - 299 ≤ cfgWindowZero.backfill_days) := by
  decide

/-- C6 (amended): the backfill resolver inspects only cache entries
dated between 1 and `max 1 backfill_days` days before today, and its
result is exactly the first non-empty raw hit over those offsets,
truncated to `limit` (empty if none). -/
theorem C6_backfill_window_bound (env : Env) (cfg : TrendConfig)
    (limit : Nat) :
    (∀ d ∈ (backfillFromRecentCache env cfg limit).probed,
        1 ≤ env.clock.today - d ∧
        env.clock.today - d ≤ max 1 cfg.backfill_days) ∧
    (backfillFromRecentCache env cfg limit).items
        = backfillSpecFirstHit env.cache env.clock.today limit
            (List.range' 1 (max 1 cfg.backfill_days).toNat) := by
  constructor
  · intro d hd
    obtain ⟨i, hi, he⟩ :=
      backfillScan_probed env.cache env.clock.today limit _ d hd
    have hmem := List.mem_range'_1.mp hi
    have hM : (((max 1 cfg.backfill_days).toNat : Nat) : Int)
        = max 1 cfg.backfill_days :=
      Int.toNat_of_nonneg
        (le_trans zero_le_one (le_max_left 1 cfg.backfill_days))
    subst he
    have h1 : 1 ≤ i := hmem.1
    have h2 : i < 1 + (max 1 cfg.backfill_days).toNat := hmem.2
    constructor
    · omega
    · omega
  · exact backfillScan_eq_firstHit env.cache env.clock.today limit _

/-- C6 witness: the amended theorem at the concrete environment with a
readable entry one day back, window bound instantiated at the probed
day 299. -/
theorem C6_backfill_window_bound_witness :
    (1 ≤ envYesterday.clock.today - 299 ∧
      envYesterday.clock.today - 299 ≤ max 1 ({} : TrendConfig).backfill_days) ∧
    (backfillFromRecentCache envYesterday {} 5).items
        = backfillSpecFirstHit envYesterday.cache envYesterday.clock.today 5
            (List.range' 1 (max 1 ({} : TrendConfig).backfill_days).toNat) :=
  ⟨(C6_backfill_window_bound envYesterday {} 5).1 299 (by decide),
   (C6_backfill_window_bound envYesterday {} 5).2⟩

/-- C7 counterexample: with all live and historical sources empty and
defaults enabled, a call with `limit = 3` ends in the defaults tier
but returns 3 keywords, not `max(5, 3) = 5` — the orchestrator
truncates the generator output to `limit`. -/
theorem C7_counterexample :
    ({} : TrendConfig).allow_defaults = true ∧
    (getDailyKeywords envAllFail {} none none 3).tier = Tier.defaults ∧
    (getDailyKeywords envAllFail {} none none 3).result.length = 3 ∧
    ¬ ((getDailyKeywords envAllFail {} none none 3).result.length
        = max 5 3) := by
  decide

/-- C7 (amended): the default generator returns the first
`max(5, limit)` items of the deterministically shuffled 25-item pool,
so its length is `min (max 5 limit) 25`; on the defaults tier the
orchestrator returns that list truncated once more to `limit`, hence
`min limit (min (max 5 limit) 25)` keywords. -/
theorem C7_gdk_defaults_length (env : Env) (cfg : TrendConfig)
    (date : Option Int) (region : Option String) (limit : Nat)
    (hA : AllFail env) (hd : cfg.allow_defaults = true) :
    (defaultKeywords env.clock
        (pyUpper (region.getD cfg.region_default)) limit).length
      = min (max 5 limit) 25 ∧
    (getDailyKeywords env cfg date region limit).tier = Tier.defaults ∧
    (getDailyKeywords env cfg date region limit).result.length
      = min limit (min (max 5 limit) 25) := by
  have h := gdk_allfail env cfg date region limit hA
  rw [hd] at h
  refine ⟨defaultKeywords_length _ _ _, by simpa using h.1, ?_⟩
  have hres := h.2.1
  simp only [cond] at hres
  rw [hres, List.length_take, defaultKeywords_length]

/-- C7 witness: the amended theorem at the concrete all-failing
environment with `limit = 3`. -/
theorem C7_gdk_defaults_length_witness :
    (defaultKeywords envAllFail.clock
        (pyUpper ((none : Option String).getD ({} : TrendConfig).region_default)) 3).length
      = min (max 5 3) 25 ∧
    (getDailyKeywords envAllFail {} none none 3).tier = Tier.defaults ∧
    (getDailyKeywords envAllFail {} none none 3).result.length
      = min 3 (min (max 5 3) 25) :=
  C7_gdk_defaults_length envAllFail {} none none 3
    ⟨(fun _ _ h => nomatch h), (fun _ _ => rfl), (fun _ => rfl)⟩ rfl

/-- C8: the default keyword generator depends on the clock only
through the `YYYYMMDD` integer, so two calls with identical
date, region and limit return identical lists; likewise the backup
source's date-seeded shuffle of the seed terms is identical across two
calls on the same calendar date. -/
theorem C8_seeded_generators_deterministic (c1 c2 : Clock)
    (cfg : TrendConfig) (region : String) (limit : Nat)
    (h : c1.ymd = c2.ymd) :
    defaultKeywords c1 region limit = defaultKeywords c2 region limit ∧
    naverShuffledSeeds c1 cfg = naverShuffledSeeds c2 cfg := by
  unfold defaultKeywords naverShuffledSeeds
  rw [h]
  exact ⟨rfl, rfl⟩

/-- C8 witness: two clocks with different timestamps and day indices
but the same `YYYYMMDD` integer produce identical outputs. -/
theorem C8_seeded_generators_deterministic_witness :
    defaultKeywords clockW "KR" 7 = defaultKeywords clockW2 "KR" 7 ∧
    naverShuffledSeeds clockW {} = naverShuffledSeeds clockW2 {} :=
  C8_seeded_generators_deterministic clockW clockW2 {} "KR" 7 rfl

/-- C9 counterexample: with `sleep_min = 8` and `sleep_max = 1` (so
`sleep_min > sleep_max * 4`), attempt 1 fails, the loop sleeps, and the
computed delay `backoffGap = 4` lies below `sleep_min` — the claimed
containment in `[sleep_min, sleep_max * 4]` fails for such
configurations. -/
theorem C9_counterexample :
    1 ∈ (fetchWithRetry envZeroJitter cfgInverted "KR" 5).sleepLog ∧
    (∀ k, 0 ≤ envZeroJitter.jitter k ∧ envZeroJitter.jitter k < 2) ∧
    ¬ (cfgInverted.sleep_min
        ≤ backoffGap cfgInverted 1 (envZeroJitter.jitter 1)) := by
  refine ⟨by decide, fun k => ⟨?_, ?_⟩, ?_⟩
  · norm_num [envZeroJitter, envAllFail]
  · norm_num [envZeroJitter, envAllFail]
  · norm_num [backoffGap, pymax, pymin, cfgInverted, envZeroJitter, envAllFail]

/-- C9 (amended): for every failed attempt `a` recorded in the sleep
log, the delay slept equals
`min (max (max sleep_min 1 * 2^(a-1) + jitter) sleep_min) (sleep_max * 4)`
with the jitter drawn from `[0, 2)`, and — provided the configuration
satisfies `sleep_min ≤ sleep_max * 4` — that delay lies within
`[sleep_min, sleep_max * 4]`. -/
theorem C9_backoff_delay_formula (env : Env) (cfg : TrendConfig)
    (region : String) (limit : Nat)
    (hj : ∀ k, 0 ≤ env.jitter k ∧ env.jitter k < 2)
    (hs : cfg.sleep_min ≤ cfg.sleep_max * 4) :
    ∀ a ∈ (fetchWithRetry env cfg region limit).sleepLog,
      1 ≤ a ∧ a ≤ 4 ∧
      backoffGap cfg a (env.jitter a)
        = min (max (max cfg.sleep_min 1 * 2 ^ (a - 1) + env.jitter a)
            cfg.sleep_min) (cfg.sleep_max * 4) ∧
      cfg.sleep_min ≤ backoffGap cfg a (env.jitter a) ∧
      backoffGap cfg a (env.jitter a) ≤ cfg.sleep_max * 4 := by
  intro a ha
  have hrange := fetchWithRetry_sleepLog_range env cfg region limit a ha
  have heq : backoffGap cfg a (env.jitter a)
      = min (max (max cfg.sleep_min 1 * 2 ^ (a - 1) + env.jitter a)
          cfg.sleep_min) (cfg.sleep_max * 4) := by
    simp only [backoffGap, pymax_eq_max, pymin_eq_min]
  refine ⟨hrange.1, hrange.2, heq, ?_, ?_⟩
  · rw [heq]
    exact le_min (le_max_right _ _) hs
  · rw [heq]
    exact min_le_right _ _

/-- C9 witness: the amended theorem at the default configuration and
the zero-jitter all-failing environment, instantiated at the first
recorded failed attempt. -/
theorem C9_backoff_delay_formula_witness :
    1 ≤ 1 ∧ 1 ≤ 4 ∧
    backoffGap {} 1 (envZeroJitter.jitter 1)
      = min (max (max ({} : TrendConfig).sleep_min 1 * 2 ^ (1 - 1)
          + envZeroJitter.jitter 1) ({} : TrendConfig).sleep_min)
          (({} : TrendConfig).sleep_max * 4) ∧
    ({} : TrendConfig).sleep_min ≤ backoffGap {} 1 (envZeroJitter.jitter 1) ∧
    backoffGap {} 1 (envZeroJitter.jitter 1)
      ≤ ({} : TrendConfig).sleep_max * 4 :=
  C9_backoff_delay_formula envZeroJitter {} "KR" 5
    (fun k => ⟨by norm_num [envZeroJitter, envAllFail],
               by norm_num [envZeroJitter, envAllFail]⟩)
    (by norm_num) 1 (by decide)

/-- C10: a fresh cache entry that decodes to the empty list — exactly
what the Exhausted tier writes — is treated like a miss: the call does
not terminate in the cache-hit tier and the primary fetch is invoked,
so a cached empty result never short-circuits later calls. -/
theorem C10_gdk_fresh_empty_falls_through (env : Env) (cfg : TrendConfig)
    (date : Option Int) (region : Option String) (limit : Nat)
    (e : Entry) (mtime : Int)
    (hc : env.cache (date.getD env.clock.today) = some e)
    (hstat : e.stat = Except.ok mtime)
    (hfresh : env.clock.now - mtime ≤ cfg.cache_ttl_days * 86400)
    (hload : e.load = Except.ok (JsonData.list [])) :
    (getDailyKeywords env cfg date region limit).tier ≠ Tier.cacheHit ∧
    (getDailyKeywords env cfg date region limit).primaryInvoked = true := by
  have hr : readCacheIfFresh cfg env.clock.now env.cache
      (date.getD env.clock.today) = (some [], "fresh") := by
    unfold readCacheIfFresh
    rw [hc]
    dsimp only
    rw [hstat]
    dsimp only
    rw [if_pos hfresh, hload]
  simp only [getDailyKeywords, hr]
  rw [if_neg (by simp)]
  exact ⟨(gdkFallbackTiers_primary env cfg _ _ limit).2,
         (gdkFallbackTiers_primary env cfg _ _ limit).1⟩

/-- C10 witness: the theorem at the environment holding a fresh empty
entry for the target date. -/
theorem C10_gdk_fresh_empty_falls_through_witness :
    (getDailyKeywords envFreshEmpty {} none none 10).tier ≠ Tier.cacheHit ∧
    (getDailyKeywords envFreshEmpty {} none none 10).primaryInvoked = true :=
  C10_gdk_fresh_empty_falls_through envFreshEmpty {} none none 10
    entryEmpty 999000 (by decide) rfl (by decide) rfl
